import Mathlib

/-!
Shallow embedding of the statistical core of `src/app.py` (a confidence-interval
calculator) and verification of the specification's claims about it.

The core consists of four functions: `validate_data`, the moment computations
(numpy's `mean` and `std` with `ddof = 1`), `calculate_confidence_intervals`
(z-score driven) and `calculate_confidence_interval_se` (standard-error-multiplier
driven).  Machine floats are modelled by real numbers.  The external library
functions used by the code are modelled as follows: `np.mean` and `np.std` by
their documented mathematical definitions over ℝ (`np_mean`, `np_std`),
`np.sqrt` by `Real.sqrt`, and `scipy.stats.norm.ppf` (the standard-normal
quantile function, which has no closed form) by an explicit function parameter
`ppf`; properties of the quantile function, such as strict monotonicity on
(0, 1), appear as hypotheses on that parameter.  The Python `dict` that
`calculate_confidence_intervals` builds is modelled by an association list with
insertion-order semantics (`dictInsert`): updating an existing key overwrites
its value in place, a new key is appended at the end.
-/

namespace ConfidenceIntervals

/-- Embedding of `validate_data` (app.py lines 27-39): a sample with fewer than
two entries is rejected with the message string from line 38, any other sample
is accepted with no message. -/
def validate_data {α : Type} (data : List α) : Bool × Option String :=
  if data.length < 2 then
    (false, some "Not enough data points for analysis.")
  else
    (true, none)

/-- Association-list model of Python `dict` assignment `d[k] = v`: if the key is
present its value is overwritten in place (keeping the key's position), otherwise
the new pair is appended at the end.  This matches the insertion-order semantics
of Python dictionaries. -/
def dictInsert {α β : Type} [DecidableEq α] : List (α × β) → α → β → List (α × β)
  | [], k, v => [(k, v)]
  | (k', v') :: d, k, v =>
      if k' = k then (k', v) :: d else (k', v') :: dictInsert d k v

/-- Association-list model of Python `dict` lookup `d[k]`: the value stored at
the first (and, for lists built by `dictInsert`, only) occurrence of the key. -/
def dictLookup {α β : Type} [DecidableEq α] : List (α × β) → α → Option β
  | [], _ => none
  | (k', v') :: d, k => if k' = k then some v' else dictLookup d k

/-- Keys of a Python dict built by successive insertions: the keys of `seen`
followed by the first occurrences of the remaining new keys, in order. -/
def firstKeys {α : Type} [DecidableEq α] : List α → List α → List α
  | seen, [] => seen
  | seen, k :: l => if k ∈ seen then firstKeys seen l else firstKeys (seen ++ [k]) l

/-- Duplicate removal keeping the first occurrence of each element, in order:
the key sequence of a Python dict built by inserting the elements in turn. -/
def dedupFirst {α : Type} [DecidableEq α] (l : List α) : List α :=
  firstKeys [] l

noncomputable section

/-- Model of `numpy.mean` on a one-dimensional array: the sum of the entries
divided by their number. -/
def np_mean (data : List ℝ) : ℝ :=
  data.sum / data.length

/-- Model of `numpy.std` with delta degrees of freedom `ddof`: the square root
of the sum of squared deviations from the mean divided by `n - ddof`.  The
source calls it with `ddof = 1` (app.py lines 54 and 81), the unbiased sample
standard deviation. -/
def np_std (data : List ℝ) (ddof : ℕ) : ℝ :=
  Real.sqrt (((data.map fun x => (x - np_mean data) ^ 2).sum) /
    ((data.length : ℝ) - (ddof : ℝ)))

/-- The z critical value of app.py line 62: the quantile function applied to
`(1 + confidence) / 2`.  The quantile function `scipy.stats.norm.ppf` is the
external library function, passed as the parameter `ppf`. -/
def z_value (ppf : ℝ → ℝ) (confidence : ℝ) : ℝ :=
  ppf ((1 + confidence) / 2)

/-- The margin of error of app.py lines 63 and 87-88: the multiplier times the
standard error `std_dev / sqrt n`. -/
def margin_of_error (z std_dev : ℝ) (n : ℕ) : ℝ :=
  z * (std_dev / Real.sqrt n)

/-- Embedding of `calculate_confidence_intervals` (app.py lines 42-66).  The
mean and the (ddof = 1) standard deviation are computed first; if `n ≤ 1` the
mean is returned with an empty dict; otherwise for each confidence level, in
input order, the interval `(mean - margin, mean + margin)` is stored in the
dict under that level. -/
def calculate_confidence_intervals (ppf : ℝ → ℝ) (data : List ℝ)
    (confidence_levels : List ℝ) : ℝ × List (ℝ × (ℝ × ℝ)) :=
  let mean := np_mean data
  let std_dev := np_std data 1
  let n := data.length
  if n ≤ 1 then
    (mean, [])
  else
    (mean,
      confidence_levels.foldl
        (fun confidence_intervals confidence =>
          dictInsert confidence_intervals confidence
            (mean - margin_of_error (z_value ppf confidence) std_dev n,
             mean + margin_of_error (z_value ppf confidence) std_dev n))
        [])

/-- Embedding of `calculate_confidence_interval_se` (app.py lines 69-89).  The
mean and the (ddof = 1) standard deviation are computed first; if `n ≤ 1` the
result is `None`; otherwise the interval `(mean - margin, mean + margin)` with
`margin = se_value * (std_dev / sqrt n)` is returned. -/
def calculate_confidence_interval_se (data : List ℝ) (se_value : ℝ) :
    Option (ℝ × ℝ) :=
  let mean := np_mean data
  let std_dev := np_std data 1
  let n := data.length
  if n ≤ 1 then
    none
  else
    let standard_error := std_dev / Real.sqrt n
    let margin := se_value * standard_error
    some (mean - margin, mean + margin)

end

/-! ### Helper lemmas about the dict model -/

theorem dictInsert_map_of_mem {α β : Type} [DecidableEq α] (f : α → β) (k : α)
    (M : List α) (h : k ∈ M) :
    dictInsert (M.map fun a => (a, f a)) k (f k) = M.map fun a => (a, f a) := by
  induction M with
  | nil => cases h
  | cons a M ih =>
      by_cases hak : a = k
      · subst hak
        simp [dictInsert]
      · have hk : k ∈ M := by
          rcases List.mem_cons.mp h with h1 | h1
          · exact absurd h1.symm hak
          · exact h1
        simp [dictInsert, hak, ih hk]

theorem dictInsert_map_of_not_mem {α β : Type} [DecidableEq α] (f : α → β) (k : α)
    (M : List α) (h : k ∉ M) :
    dictInsert (M.map fun a => (a, f a)) k (f k) = (M ++ [k]).map fun a => (a, f a) := by
  induction M with
  | nil => simp [dictInsert]
  | cons a M ih =>
      have hak : a ≠ k := fun hak => h (hak ▸ List.mem_cons_self a M)
      have hk : k ∉ M := fun hk => h (List.mem_cons_of_mem a hk)
      simp [dictInsert, hak, ih hk]

theorem foldl_dictInsert_map {α β : Type} [DecidableEq α] (f : α → β) (L : List α) :
    ∀ M : List α,
      L.foldl (fun d k => dictInsert d k (f k)) (M.map fun a => (a, f a)) =
        (firstKeys M L).map fun a => (a, f a) := by
  induction L with
  | nil => intro M; rfl
  | cons k L ih =>
      intro M
      by_cases hk : k ∈ M
      · simp only [List.foldl_cons, dictInsert_map_of_mem f k M hk, firstKeys, if_pos hk]
        exact ih M
      · simp only [List.foldl_cons, dictInsert_map_of_not_mem f k M hk, firstKeys,
          if_neg hk]
        exact ih (M ++ [k])

theorem mem_firstKeys {α : Type} [DecidableEq α] (L : List α) :
    ∀ (seen : List α) (c : α), c ∈ firstKeys seen L ↔ c ∈ seen ∨ c ∈ L := by
  induction L with
  | nil => intro seen c; simp [firstKeys]
  | cons k L ih =>
      intro seen c
      by_cases hk : k ∈ seen
      · simp only [firstKeys, if_pos hk, ih]
        constructor
        · rintro (h | h)
          · exact Or.inl h
          · exact Or.inr (List.mem_cons_of_mem k h)
        · rintro (h | h)
          · exact Or.inl h
          · rcases List.mem_cons.mp h with h1 | h1
            · exact Or.inl (h1 ▸ hk)
            · exact Or.inr h1
      · simp only [firstKeys, if_neg hk, ih, List.mem_append, List.mem_singleton,
          List.mem_cons]
        tauto

theorem nodup_firstKeys {α : Type} [DecidableEq α] (L : List α) :
    ∀ seen : List α, seen.Nodup → (firstKeys seen L).Nodup := by
  induction L with
  | nil => intro seen h; exact h
  | cons k L ih =>
      intro seen h
      by_cases hk : k ∈ seen
      · simp only [firstKeys, if_pos hk]
        exact ih seen h
      · simp only [firstKeys, if_neg hk]
        refine ih (seen ++ [k]) ?_
        simp [List.nodup_append, h, hk]

theorem dictLookup_map_of_mem {α β : Type} [DecidableEq α] (f : α → β) (c : α)
    (M : List α) (h : c ∈ M) :
    dictLookup (M.map fun a => (a, f a)) c = some (f c) := by
  induction M with
  | nil => cases h
  | cons a M ih =>
      by_cases hac : a = c
      · subst hac
        simp [dictLookup]
      · have hc : c ∈ M := by
          rcases List.mem_cons.mp h with h1 | h1
          · exact absurd h1.symm hac
          · exact h1
        simp [dictLookup, hac, ih hc]

/-! ### Structural lemmas about the two calculators -/

theorem calculate_confidence_intervals_def (ppf : ℝ → ℝ) (data : List ℝ)
    (confidence_levels : List ℝ) :
    calculate_confidence_intervals ppf data confidence_levels =
      if data.length ≤ 1 then (np_mean data, [])
      else
        (np_mean data,
          confidence_levels.foldl
            (fun d c =>
              dictInsert d c
                (np_mean data -
                   margin_of_error (z_value ppf c) (np_std data 1) data.length,
                 np_mean data +
                   margin_of_error (z_value ppf c) (np_std data 1) data.length))
            []) := rfl

theorem calculate_confidence_interval_se_def (data : List ℝ) (se_value : ℝ) :
    calculate_confidence_interval_se data se_value =
      if data.length ≤ 1 then none
      else
        some (np_mean data -
                margin_of_error se_value (np_std data 1) data.length,
              np_mean data +
                margin_of_error se_value (np_std data 1) data.length) := rfl

theorem calculate_confidence_intervals_fst (ppf : ℝ → ℝ) (data : List ℝ)
    (confidence_levels : List ℝ) :
    (calculate_confidence_intervals ppf data confidence_levels).1 = np_mean data := by
  rw [calculate_confidence_intervals_def]
  split <;> rfl

theorem calculate_confidence_intervals_snd (ppf : ℝ → ℝ) (data : List ℝ)
    (confidence_levels : List ℝ) (h : 2 ≤ data.length) :
    (calculate_confidence_intervals ppf data confidence_levels).2 =
      (dedupFirst confidence_levels).map fun c =>
        (c, (np_mean data -
               margin_of_error (z_value ppf c) (np_std data 1) data.length,
             np_mean data +
               margin_of_error (z_value ppf c) (np_std data 1) data.length)) := by
  rw [calculate_confidence_intervals_def, if_neg (by omega)]
  have := foldl_dictInsert_map
    (fun c =>
      (np_mean data - margin_of_error (z_value ppf c) (np_std data 1) data.length,
       np_mean data + margin_of_error (z_value ppf c) (np_std data 1) data.length))
    confidence_levels []
  simpa [dedupFirst] using this

/-- The standard deviation model is a square root, hence non-negative. -/
theorem np_std_nonneg (data : List ℝ) (ddof : ℕ) : 0 ≤ np_std data ddof :=
  Real.sqrt_nonneg _

/-! ### Claims -/

/-- C1: for every sample with n ≥ 2 and every confidence level c in the supplied
sequence, `calculate_confidence_intervals` maps c to the interval
(mean - margin, mean + margin) where z = ppf ((1 + c) / 2) is the standard-normal
quantile, margin = z * stddev / sqrt n, mean is the arithmetic average and stddev
the unbiased sample standard deviation; the returned first component equals that
mean. -/
theorem C1_z_interval_formula (ppf : ℝ → ℝ) (data : List ℝ)
    (confidence_levels : List ℝ) (c : ℝ) (hn : 2 ≤ data.length)
    (hc : c ∈ confidence_levels) :
    dictLookup (calculate_confidence_intervals ppf data confidence_levels).2 c =
      some (np_mean data - ppf ((1 + c) / 2) * np_std data 1 / Real.sqrt data.length,
            np_mean data + ppf ((1 + c) / 2) * np_std data 1 / Real.sqrt data.length) ∧
    (calculate_confidence_intervals ppf data confidence_levels).1 = np_mean data := by
  constructor
  · rw [calculate_confidence_intervals_snd ppf data confidence_levels hn]
    have hcd : c ∈ dedupFirst confidence_levels := by
      rw [dedupFirst, mem_firstKeys]
      exact Or.inr hc
    rw [dictLookup_map_of_mem _ c _ hcd]
    simp [margin_of_error, z_value, mul_div_assoc]
  · exact calculate_confidence_intervals_fst ppf data confidence_levels

/-- Witness for C1 at the sample [1, 2] and the single level 1/2. -/
theorem C1_z_interval_formula_witness :
    2 ≤ [(1:ℝ), 2].length ∧ (1:ℝ)/2 ∈ [(1:ℝ)/2] ∧
    (dictLookup (calculate_confidence_intervals id [(1:ℝ), 2] [(1:ℝ)/2]).2 (1/2) =
      some (np_mean [(1:ℝ), 2] -
              id ((1 + 1/2) / 2) * np_std [(1:ℝ), 2] 1 / Real.sqrt [(1:ℝ), 2].length,
            np_mean [(1:ℝ), 2] +
              id ((1 + 1/2) / 2) * np_std [(1:ℝ), 2] 1 / Real.sqrt [(1:ℝ), 2].length) ∧
      (calculate_confidence_intervals id [(1:ℝ), 2] [(1:ℝ)/2]).1 = np_mean [(1:ℝ), 2]) :=
  ⟨by decide, by simp,
    C1_z_interval_formula id [(1:ℝ), 2] [(1:ℝ)/2] (1/2) (by decide) (by simp)⟩

/-- C2: for every sample with n ≥ 2 the moment computation used by both interval
calculators returns the arithmetic average as the mean, and
sqrt (Σ (x - mean)² / (n - 1)) — the unbiased, (n-1)-denominator estimator — as
the standard deviation. -/
theorem C2_moments (data : List ℝ) (hn : 2 ≤ data.length) :
    np_mean data = data.sum / data.length ∧
    np_std data 1 =
      Real.sqrt (((data.map fun x => (x - np_mean data) ^ 2).sum) /
        ((data.length : ℝ) - 1)) := by
  refine ⟨rfl, ?_⟩
  norm_num [np_std]

/-- Witness for C2 at the sample [1, 2]. -/
theorem C2_moments_witness :
    2 ≤ [(1:ℝ), 2].length ∧
    (np_mean [(1:ℝ), 2] = [(1:ℝ), 2].sum / [(1:ℝ), 2].length ∧
     np_std [(1:ℝ), 2] 1 =
       Real.sqrt ((([(1:ℝ), 2].map fun x => (x - np_mean [(1:ℝ), 2]) ^ 2).sum) /
         (([(1:ℝ), 2].length : ℝ) - 1))) :=
  ⟨by decide, C2_moments [(1:ℝ), 2] (by decide)⟩

/-- C4 counterexample: on the one-element sample [5] the validator does reject,
but the reason string is "Not enough data points for analysis.", not
"insufficient data" as the claim states. -/
theorem C4_counterexample :
    [(5:ℝ)].length < 2 ∧
    validate_data [(5:ℝ)] ≠ (false, some "insufficient data") ∧
    validate_data [(5:ℝ)] = (false, some "Not enough data points for analysis.") := by
  refine ⟨by decide, ?_, by decide⟩
  decide

/-- C4 amended: `validate_data` returns ok = false with the reason string
"Not enough data points for analysis." exactly when the sample has fewer than
two entries, and ok = true with no reason otherwise. -/
theorem C4_amended_validate (data : List ℝ) :
    (validate_data data = (false, some "Not enough data points for analysis.") ↔
      data.length < 2) ∧
    (validate_data data = (true, none) ↔ ¬ data.length < 2) := by
  unfold validate_data
  by_cases h : data.length < 2 <;> simp [h]

/-- C5: for every sample with n ≤ 1, `calculate_confidence_intervals` returns
the mean together with an empty mapping and `calculate_confidence_interval_se`
returns none; neither signals an error. -/
theorem C5_degraded_paths (ppf : ℝ → ℝ) (data : List ℝ)
    (confidence_levels : List ℝ) (k : ℝ) (hn : data.length ≤ 1) :
    calculate_confidence_intervals ppf data confidence_levels = (np_mean data, []) ∧
    calculate_confidence_interval_se data k = none := by
  rw [calculate_confidence_intervals_def, calculate_confidence_interval_se_def,
    if_pos hn, if_pos hn]
  exact ⟨rfl, rfl⟩

/-- Witness for C5 at the one-element sample [5]. -/
theorem C5_degraded_paths_witness :
    [(5:ℝ)].length ≤ 1 ∧
    (calculate_confidence_intervals id [(5:ℝ)] [(1:ℝ)/2] = (np_mean [(5:ℝ)], []) ∧
     calculate_confidence_interval_se [(5:ℝ)] 1 = none) :=
  ⟨by decide, C5_degraded_paths id [(5:ℝ)] [(1:ℝ)/2] 1 (by decide)⟩

/-- C3 counterexample: on the sample [1, 2] with the duplicated level sequence
[1/2, 1/2] (two input elements), the output dict has a single entry — the Python
dict merges duplicate keys, so there is not one entry per input element. -/
theorem C3_counterexample :
    [(1:ℝ)/2, 1/2].length = 2 ∧
    (calculate_confidence_intervals id [(1:ℝ), 2] [(1:ℝ)/2, 1/2]).2.length = 1 := by
  refine ⟨rfl, ?_⟩
  rw [calculate_confidence_intervals_snd id [(1:ℝ), 2] [(1:ℝ)/2, 1/2] (by decide)]
  simp [dedupFirst, firstKeys]

/-- C3 amended: for every sample with n ≥ 2, the output of
`calculate_confidence_intervals` contains one (level, interval) entry per
distinct level in the input sequence, in order of first occurrence; duplicate
levels collapse into a single entry (the dict key set has no duplicates, and a
level appears as a key exactly when it occurs in the input). -/
theorem C3_amended_order_dedup (ppf : ℝ → ℝ) (data : List ℝ)
    (confidence_levels : List ℝ) (hn : 2 ≤ data.length) :
    (calculate_confidence_intervals ppf data confidence_levels).2 =
      (dedupFirst confidence_levels).map (fun c =>
        (c, (np_mean data -
               margin_of_error (z_value ppf c) (np_std data 1) data.length,
             np_mean data +
               margin_of_error (z_value ppf c) (np_std data 1) data.length))) ∧
    (dedupFirst confidence_levels).Nodup ∧
    ∀ c : ℝ, c ∈ dedupFirst confidence_levels ↔ c ∈ confidence_levels := by
  refine ⟨calculate_confidence_intervals_snd ppf data confidence_levels hn,
    nodup_firstKeys confidence_levels [] List.nodup_nil, ?_⟩
  intro c
  rw [dedupFirst, mem_firstKeys]
  simp

/-- Witness for the amended C3 at the sample [1, 2] and levels [9/10, 1/2]. -/
theorem C3_amended_order_dedup_witness :
    2 ≤ [(1:ℝ), 2].length ∧
    ((calculate_confidence_intervals id [(1:ℝ), 2] [(9:ℝ)/10, 1/2]).2 =
      (dedupFirst [(9:ℝ)/10, 1/2]).map (fun c =>
        (c, (np_mean [(1:ℝ), 2] -
               margin_of_error (z_value id c) (np_std [(1:ℝ), 2] 1)
                 [(1:ℝ), 2].length,
             np_mean [(1:ℝ), 2] +
               margin_of_error (z_value id c) (np_std [(1:ℝ), 2] 1)
                 [(1:ℝ), 2].length))) ∧
     (dedupFirst [(9:ℝ)/10, 1/2]).Nodup ∧
     ∀ c : ℝ, c ∈ dedupFirst [(9:ℝ)/10, 1/2] ↔ c ∈ [(9:ℝ)/10, 1/2]) :=
  ⟨by decide, C3_amended_order_dedup id [(1:ℝ), 2] [(9:ℝ)/10, 1/2] (by decide)⟩

/-- C6 counterexample: on the one-element sample [4] both interval computations
produce no interval, but `calculate_confidence_intervals` still computes the
sample mean (4) and returns it, so the refusal does not extend to "computing no
moments". -/
theorem C6_counterexample :
    [(4:ℝ)].length < 2 ∧
    (calculate_confidence_intervals id [(4:ℝ)] [(1:ℝ)/2]).1 = 4 ∧
    (calculate_confidence_intervals id [(4:ℝ)] [(1:ℝ)/2]).2 = [] ∧
    calculate_confidence_interval_se [(4:ℝ)] 1 = none := by
  refine ⟨by decide, ?_, ?_, ?_⟩
  · rw [calculate_confidence_intervals_fst]
    norm_num [np_mean, List.sum_cons, List.sum_nil]
  · rw [calculate_confidence_intervals_def, if_pos (by decide)]
  · rw [calculate_confidence_interval_se_def, if_pos (by decide)]

/-- C6 amended: for every sample with n < 2, both interval computations produce
no interval (empty mapping, respectively none); the z-score calculator
nevertheless computes the sample mean and returns it as its first component. -/
theorem C6_amended_no_intervals (ppf : ℝ → ℝ) (data : List ℝ)
    (confidence_levels : List ℝ) (k : ℝ) (hn : data.length < 2) :
    (calculate_confidence_intervals ppf data confidence_levels).2 = [] ∧
    calculate_confidence_interval_se data k = none ∧
    (calculate_confidence_intervals ppf data confidence_levels).1 = np_mean data := by
  have h1 : data.length ≤ 1 := by omega
  rw [calculate_confidence_intervals_def, calculate_confidence_interval_se_def,
    if_pos h1, if_pos h1]
  exact ⟨rfl, rfl, rfl⟩

/-- Witness for the amended C6 at the one-element sample [7]. -/
theorem C6_amended_no_intervals_witness :
    [(7:ℝ)].length < 2 ∧
    ((calculate_confidence_intervals id [(7:ℝ)] [(1:ℝ)/2]).2 = [] ∧
     calculate_confidence_interval_se [(7:ℝ)] 2 = none ∧
     (calculate_confidence_intervals id [(7:ℝ)] [(1:ℝ)/2]).1 = np_mean [(7:ℝ)]) :=
  ⟨by decide, C6_amended_no_intervals id [(7:ℝ)] [(1:ℝ)/2] 2 (by decide)⟩

/-- C7: for every sample with n ≥ 2 and non-negative multiplier k,
`calculate_confidence_interval_se` returns (mean - margin, mean + margin) with
margin = k * stddev / sqrt n; in particular k = 0 yields the zero-width interval
(mean, mean). -/
theorem C7_se_interval_formula (data : List ℝ) (k : ℝ) (hn : 2 ≤ data.length)
    (hk : 0 ≤ k) :
    calculate_confidence_interval_se data k =
      some (np_mean data - k * np_std data 1 / Real.sqrt data.length,
            np_mean data + k * np_std data 1 / Real.sqrt data.length) ∧
    calculate_confidence_interval_se data 0 = some (np_mean data, np_mean data) := by
  constructor
  · rw [calculate_confidence_interval_se_def, if_neg (by omega)]
    simp [margin_of_error, mul_div_assoc]
  · rw [calculate_confidence_interval_se_def, if_neg (by omega)]
    simp [margin_of_error]

/-- Witness for C7 at the sample [1, 2] and multiplier 1. -/
theorem C7_se_interval_formula_witness :
    2 ≤ [(1:ℝ), 2].length ∧ (0:ℝ) ≤ 1 ∧
    (calculate_confidence_interval_se [(1:ℝ), 2] 1 =
      some (np_mean [(1:ℝ), 2] -
              1 * np_std [(1:ℝ), 2] 1 / Real.sqrt [(1:ℝ), 2].length,
            np_mean [(1:ℝ), 2] +
              1 * np_std [(1:ℝ), 2] 1 / Real.sqrt [(1:ℝ), 2].length) ∧
     calculate_confidence_interval_se [(1:ℝ), 2] 0 =
       some (np_mean [(1:ℝ), 2], np_mean [(1:ℝ), 2])) :=
  ⟨by decide, by norm_num,
    C7_se_interval_formula [(1:ℝ), 2] 1 (by decide) (by norm_num)⟩

/-- On the constant sample [1, 1] the unbiased standard deviation is zero. -/
theorem np_std_const_pair : np_std [(1:ℝ), 1] 1 = 0 := by
  have h : ((([(1:ℝ), 1].map fun x => (x - np_mean [(1:ℝ), 1]) ^ 2).sum) /
      (([(1:ℝ), 1].length : ℝ) - (1:ℕ))) = 0 := by
    norm_num [np_mean, List.sum_cons, List.sum_nil]
  rw [np_std, h, Real.sqrt_zero]

/-- On the sample [1, 2] the unbiased standard deviation is positive. -/
theorem np_std_one_two_pos : 0 < np_std [(1:ℝ), 2] 1 := by
  rw [np_std]
  refine Real.sqrt_pos.mpr ?_
  norm_num [np_mean, List.sum_cons, List.sum_nil]

/-- C8 counterexample: on the constant sample [1, 1] (n = 2, stddev = 0) the
margins of error at the levels 1/4 and 1/2 coincide (both are zero), although
1/4 < 1/2, both levels lie in (0, 1) and the quantile function (here id, which
is strictly monotone on (0, 1)) is strictly monotone — so the half-width is not
strictly increasing in the confidence level for every sample with n ≥ 2. -/
theorem C8_counterexample :
    StrictMonoOn id (Set.Ioo (0:ℝ) 1) ∧
    2 ≤ [(1:ℝ), 1].length ∧
    (1:ℝ)/4 ∈ Set.Ioo (0:ℝ) 1 ∧ (1:ℝ)/2 ∈ Set.Ioo (0:ℝ) 1 ∧ (1:ℝ)/4 < 1/2 ∧
    ¬ margin_of_error (z_value id (1/4)) (np_std [(1:ℝ), 1] 1) [(1:ℝ), 1].length <
        margin_of_error (z_value id (1/2)) (np_std [(1:ℝ), 1] 1) [(1:ℝ), 1].length := by
  refine ⟨fun a _ b _ h => h, by decide, by norm_num, by norm_num, by norm_num, ?_⟩
  rw [np_std_const_pair]
  simp [margin_of_error]

/-- C8 amended: for a fixed sample with n ≥ 2 and a quantile function strictly
monotone on (0, 1), the margin of error is non-decreasing in the confidence
level (for levels in (0, 1)) and in the SE multiplier, with no restriction on
the sample's standard deviation; it is strictly increasing in the confidence
level whenever the sample standard deviation is positive, while on a constant
sample (standard deviation zero) all margins are zero, so the widths tie.  For
fixed non-negative z and stddev it is non-increasing in n. -/
theorem C8_amended_monotonicity (ppf : ℝ → ℝ) (data : List ℝ)
    (c1 c2 k1 k2 : ℝ) (n1 n2 : ℕ) (z sigma : ℝ)
    (hmono : StrictMonoOn ppf (Set.Ioo (0:ℝ) 1))
    (hc1 : c1 ∈ Set.Ioo (0:ℝ) 1) (hc2 : c2 ∈ Set.Ioo (0:ℝ) 1) (hc : c1 ≤ c2)
    (hn : 2 ≤ data.length)
    (hk : k1 ≤ k2) (hn1 : 1 ≤ n1) (hn12 : n1 ≤ n2) (hz : 0 ≤ z) (hs : 0 ≤ sigma) :
    margin_of_error (z_value ppf c1) (np_std data 1) data.length ≤
      margin_of_error (z_value ppf c2) (np_std data 1) data.length ∧
    (0 < np_std data 1 → c1 < c2 →
      margin_of_error (z_value ppf c1) (np_std data 1) data.length <
        margin_of_error (z_value ppf c2) (np_std data 1) data.length) ∧
    (np_std data 1 = 0 →
      margin_of_error (z_value ppf c1) (np_std data 1) data.length = 0 ∧
      margin_of_error (z_value ppf c2) (np_std data 1) data.length = 0) ∧
    margin_of_error k1 (np_std data 1) data.length ≤
      margin_of_error k2 (np_std data 1) data.length ∧
    margin_of_error z sigma n2 ≤ margin_of_error z sigma n1 := by
  have hsqrt_pos : (0:ℝ) < Real.sqrt data.length := by
    refine Real.sqrt_pos.mpr ?_
    have : 0 < data.length := by omega
    exact_mod_cast this
  have hse_nonneg : 0 ≤ np_std data 1 / Real.sqrt data.length :=
    div_nonneg (np_std_nonneg data 1) (Real.sqrt_nonneg _)
  have h1 : (1 + c1) / 2 ∈ Set.Ioo (0:ℝ) 1 := by
    constructor
    · linarith [hc1.1]
    · linarith [hc1.2]
  have h2 : (1 + c2) / 2 ∈ Set.Ioo (0:ℝ) 1 := by
    constructor
    · linarith [hc2.1]
    · linarith [hc2.2]
  refine ⟨?_, ?_, ?_, ?_, ?_⟩
  · have hle : (1 + c1) / 2 ≤ (1 + c2) / 2 := by linarith
    have hppf : ppf ((1 + c1) / 2) ≤ ppf ((1 + c2) / 2) :=
      hmono.monotoneOn h1 h2 hle
    exact mul_le_mul_of_nonneg_right hppf hse_nonneg
  · intro hstd hlt
    have hse_pos : 0 < np_std data 1 / Real.sqrt data.length :=
      div_pos hstd hsqrt_pos
    have hlt2 : (1 + c1) / 2 < (1 + c2) / 2 := by linarith
    have hppf : ppf ((1 + c1) / 2) < ppf ((1 + c2) / 2) := hmono h1 h2 hlt2
    exact mul_lt_mul_of_pos_right hppf hse_pos
  · intro h0
    constructor <;> simp [margin_of_error, h0]
  · exact mul_le_mul_of_nonneg_right hk hse_nonneg
  · refine mul_le_mul_of_nonneg_left ?_ hz
    refine div_le_div_of_nonneg_left hs ?_ ?_
    · refine Real.sqrt_pos.mpr ?_
      have : 0 < n1 := by omega
      exact_mod_cast this
    · refine Real.sqrt_le_sqrt ?_
      exact_mod_cast hn12

/-- Witness for the amended C8: quantile function id, sample [1, 2], levels 1/4
and 1/2, multipliers 0 and 1, sizes 1 and 4, z = 1, stddev = 1. -/
theorem C8_amended_monotonicity_witness :
    (StrictMonoOn id (Set.Ioo (0:ℝ) 1) ∧
     (1:ℝ)/4 ∈ Set.Ioo (0:ℝ) 1 ∧ (1:ℝ)/2 ∈ Set.Ioo (0:ℝ) 1 ∧ (1:ℝ)/4 ≤ 1/2 ∧
     2 ≤ [(1:ℝ), 2].length ∧
     (0:ℝ) ≤ 1 ∧ 1 ≤ 1 ∧ 1 ≤ 4 ∧ (0:ℝ) ≤ 1 ∧ (0:ℝ) ≤ 1) ∧
    (margin_of_error (z_value id (1/4)) (np_std [(1:ℝ), 2] 1) [(1:ℝ), 2].length ≤
       margin_of_error (z_value id (1/2)) (np_std [(1:ℝ), 2] 1) [(1:ℝ), 2].length ∧
     (0 < np_std [(1:ℝ), 2] 1 → (1:ℝ)/4 < 1/2 →
       margin_of_error (z_value id (1/4)) (np_std [(1:ℝ), 2] 1)
           [(1:ℝ), 2].length <
         margin_of_error (z_value id (1/2)) (np_std [(1:ℝ), 2] 1)
           [(1:ℝ), 2].length) ∧
     (np_std [(1:ℝ), 2] 1 = 0 →
       margin_of_error (z_value id (1/4)) (np_std [(1:ℝ), 2] 1)
           [(1:ℝ), 2].length = 0 ∧
       margin_of_error (z_value id (1/2)) (np_std [(1:ℝ), 2] 1)
           [(1:ℝ), 2].length = 0) ∧
     margin_of_error 0 (np_std [(1:ℝ), 2] 1) [(1:ℝ), 2].length ≤
       margin_of_error 1 (np_std [(1:ℝ), 2] 1) [(1:ℝ), 2].length ∧
     margin_of_error 1 1 4 ≤ margin_of_error 1 1 1) :=
  ⟨⟨fun a _ b _ h => h, by norm_num, by norm_num, by norm_num,
    by decide, by norm_num, le_refl 1, by norm_num, by norm_num, by norm_num⟩,
   C8_amended_monotonicity id [(1:ℝ), 2] (1/4) (1/2) 0 1 1 4 1 1
     (fun a _ b _ h => h) (by norm_num) (by norm_num) (by norm_num)
     (by decide) (by norm_num) (le_refl 1) (by norm_num)
     (by norm_num) (by norm_num)⟩

/-- C9: every interval computed by either calculator is symmetric about the
mean: mean - lower = upper - mean, both for every entry of the z-score dict and
for the standard-error interval. -/
theorem C9_symmetry (ppf : ℝ → ℝ) (data : List ℝ) (confidence_levels : List ℝ)
    (c lo hi lo' hi' k : ℝ) :
    ((c, (lo, hi)) ∈ (calculate_confidence_intervals ppf data confidence_levels).2 →
       np_mean data - lo = hi - np_mean data) ∧
    (calculate_confidence_interval_se data k = some (lo', hi') →
       np_mean data - lo' = hi' - np_mean data) := by
  constructor
  · intro hmem
    by_cases hn : data.length ≤ 1
    · rw [calculate_confidence_intervals_def, if_pos hn] at hmem
      simp at hmem
    · rw [calculate_confidence_intervals_snd ppf data confidence_levels
        (by omega)] at hmem
      rw [List.mem_map] at hmem
      obtain ⟨a, _, heq⟩ := hmem
      rw [Prod.mk.injEq, Prod.mk.injEq] at heq
      obtain ⟨rfl, h1, h2⟩ := heq
      rw [← h1, ← h2]
      ring
  · intro hse
    rw [calculate_confidence_interval_se_def] at hse
    by_cases hn : data.length ≤ 1
    · rw [if_pos hn] at hse
      cases hse
    · rw [if_neg hn] at hse
      rw [Option.some.injEq, Prod.mk.injEq] at hse
      obtain ⟨h1, h2⟩ := hse
      rw [← h1, ← h2]
      ring

/-- Witness for C9 at the sample [1, 2]: the level-1/2 entry of the z-score
dict and the multiplier-1 standard-error interval are both symmetric. -/
theorem C9_symmetry_witness :
    (((1:ℝ)/2,
        (np_mean [(1:ℝ), 2] -
           margin_of_error (z_value id (1/2)) (np_std [(1:ℝ), 2] 1)
             [(1:ℝ), 2].length,
         np_mean [(1:ℝ), 2] +
           margin_of_error (z_value id (1/2)) (np_std [(1:ℝ), 2] 1)
             [(1:ℝ), 2].length)) ∈
        (calculate_confidence_intervals id [(1:ℝ), 2] [(1:ℝ)/2]).2 ∧
      np_mean [(1:ℝ), 2] -
          (np_mean [(1:ℝ), 2] -
            margin_of_error (z_value id (1/2)) (np_std [(1:ℝ), 2] 1)
              [(1:ℝ), 2].length) =
        (np_mean [(1:ℝ), 2] +
            margin_of_error (z_value id (1/2)) (np_std [(1:ℝ), 2] 1)
              [(1:ℝ), 2].length) - np_mean [(1:ℝ), 2]) ∧
    (calculate_confidence_interval_se [(1:ℝ), 2] 1 =
        some (np_mean [(1:ℝ), 2] -
                margin_of_error 1 (np_std [(1:ℝ), 2] 1) [(1:ℝ), 2].length,
              np_mean [(1:ℝ), 2] +
                margin_of_error 1 (np_std [(1:ℝ), 2] 1) [(1:ℝ), 2].length) ∧
      np_mean [(1:ℝ), 2] -
          (np_mean [(1:ℝ), 2] -
            margin_of_error 1 (np_std [(1:ℝ), 2] 1) [(1:ℝ), 2].length) =
        (np_mean [(1:ℝ), 2] +
            margin_of_error 1 (np_std [(1:ℝ), 2] 1) [(1:ℝ), 2].length) -
          np_mean [(1:ℝ), 2]) := by
  have hmem : ((1:ℝ)/2,
      (np_mean [(1:ℝ), 2] -
         margin_of_error (z_value id (1/2)) (np_std [(1:ℝ), 2] 1)
           [(1:ℝ), 2].length,
       np_mean [(1:ℝ), 2] +
         margin_of_error (z_value id (1/2)) (np_std [(1:ℝ), 2] 1)
           [(1:ℝ), 2].length)) ∈
      (calculate_confidence_intervals id [(1:ℝ), 2] [(1:ℝ)/2]).2 := by
    rw [calculate_confidence_intervals_snd id [(1:ℝ), 2] [(1:ℝ)/2] (by decide)]
    simp [dedupFirst, firstKeys]
  have hse : calculate_confidence_interval_se [(1:ℝ), 2] 1 =
      some (np_mean [(1:ℝ), 2] -
              margin_of_error 1 (np_std [(1:ℝ), 2] 1) [(1:ℝ), 2].length,
            np_mean [(1:ℝ), 2] +
              margin_of_error 1 (np_std [(1:ℝ), 2] 1) [(1:ℝ), 2].length) := by
    rw [calculate_confidence_interval_se_def, if_neg (by decide)]
  exact ⟨⟨hmem,
      (C9_symmetry id [(1:ℝ), 2] [(1:ℝ)/2] (1/2)
        (np_mean [(1:ℝ), 2] -
          margin_of_error (z_value id (1/2)) (np_std [(1:ℝ), 2] 1)
            [(1:ℝ), 2].length)
        (np_mean [(1:ℝ), 2] +
          margin_of_error (z_value id (1/2)) (np_std [(1:ℝ), 2] 1)
            [(1:ℝ), 2].length)
        (np_mean [(1:ℝ), 2] -
          margin_of_error 1 (np_std [(1:ℝ), 2] 1) [(1:ℝ), 2].length)
        (np_mean [(1:ℝ), 2] +
          margin_of_error 1 (np_std [(1:ℝ), 2] 1) [(1:ℝ), 2].length)
        1).1 hmem⟩,
    ⟨hse,
      (C9_symmetry id [(1:ℝ), 2] [(1:ℝ)/2] (1/2)
        (np_mean [(1:ℝ), 2] -
          margin_of_error (z_value id (1/2)) (np_std [(1:ℝ), 2] 1)
            [(1:ℝ), 2].length)
        (np_mean [(1:ℝ), 2] +
          margin_of_error (z_value id (1/2)) (np_std [(1:ℝ), 2] 1)
            [(1:ℝ), 2].length)
        (np_mean [(1:ℝ), 2] -
          margin_of_error 1 (np_std [(1:ℝ), 2] 1) [(1:ℝ), 2].length)
        (np_mean [(1:ℝ), 2] +
          margin_of_error 1 (np_std [(1:ℝ), 2] 1) [(1:ℝ), 2].length)
        1).2 hse⟩⟩

/-- C10: for every sample with n ≥ 2 and every confidence level c in (0, 1)
occurring in the supplied sequence, `calculate_confidence_interval_se` called
with the multiplier ppf ((1 + c) / 2) returns exactly the interval that
`calculate_confidence_intervals` associates with c on the same sample. -/
theorem C10_two_calculators_agree (ppf : ℝ → ℝ) (data : List ℝ)
    (confidence_levels : List ℝ) (c : ℝ) (hn : 2 ≤ data.length)
    (hc01 : c ∈ Set.Ioo (0:ℝ) 1) (hc : c ∈ confidence_levels) :
    calculate_confidence_interval_se data (z_value ppf c) =
      dictLookup (calculate_confidence_intervals ppf data confidence_levels).2 c := by
  rw [calculate_confidence_interval_se_def, if_neg (by omega),
    calculate_confidence_intervals_snd ppf data confidence_levels hn,
    dictLookup_map_of_mem _ c _ (by rw [dedupFirst, mem_firstKeys]; exact Or.inr hc)]

/-- Witness for C10 at the sample [1, 2] and the level 1/2. -/
theorem C10_two_calculators_agree_witness :
    2 ≤ [(1:ℝ), 2].length ∧ (1:ℝ)/2 ∈ Set.Ioo (0:ℝ) 1 ∧ (1:ℝ)/2 ∈ [(1:ℝ)/2] ∧
    calculate_confidence_interval_se [(1:ℝ), 2] (z_value id (1/2)) =
      dictLookup (calculate_confidence_intervals id [(1:ℝ), 2] [(1:ℝ)/2]).2 (1/2) :=
  ⟨by decide, by norm_num, by simp,
    C10_two_calculators_agree id [(1:ℝ), 2] [(1:ℝ)/2] (1/2) (by decide)
      (by norm_num) (by simp)⟩

end ConfidenceIntervals
